import Mathlib

/-!
Shallow embedding of `packages/cli-tool/src/services/starter-template/FrameworkAgnosticStarter.ts`.

The module scaffolds a framework-agnostic starter project: one operation merges an
optional existing `package.json` with fixed defaults, the remaining operations write
fixed-content files.  JavaScript objects are modelled as insertion-ordered association
lists (`JObject`), JavaScript values as `JValue`, and the JS idioms used by the source
(`||`, `??`, optional chaining `?.`, object spread `{...o}`) get explicit counterparts
below.  File-system effects are modelled by a state type `FS` holding the files written
and the directories ensured so far.
-/

set_option maxHeartbeats 1000000

/-- JSON-like JavaScript values: the contents of a parsed `package.json`. -/
inductive JValue where
  | null
  | bool (b : Bool)
  | num (n : Int)
  | str (s : String)
  | arr (elems : List JValue)
  | obj (fields : List (String × JValue))

/-- A JavaScript object: fields in insertion order. -/
abbrev JObject := List (String × JValue)

/-- First-occurrence lookup in an association list (JS property read). -/
def lookupA {α : Type} : List (String × α) → String → Option α
  | [], _ => none
  | (k, v) :: rest, key => if k = key then some v else lookupA rest key

/-- JS property assignment inside an object literal: an existing key keeps its
position and gets the new value, a fresh key is appended at the end. -/
def assocSet {α : Type} : List (String × α) → String → α → List (String × α)
  | [], key, v => [(key, v)]
  | (k, w) :: rest, key, v =>
    if k = key then (k, v) :: rest else (k, w) :: assocSet rest key v

/-- JavaScript truthiness: `null`, `false`, `0` and the empty string are falsy. -/
def truthy : JValue → Bool
  | .null => false
  | .bool b => b
  | .num n => decide (n ≠ 0)
  | .str s => decide (s ≠ "")
  | .arr _ => true
  | .obj _ => true

/-- The JS expression `x || d` where `x` may be absent (`undefined`). -/
def jsOr (x : Option JValue) (d : JValue) : JValue :=
  match x with
  | some v => if truthy v then v else d
  | none => d

/-- The JS expression `x ?? d` where `x` may be absent (`undefined`). -/
def jsNullish (x : Option JValue) (d : JValue) : JValue :=
  match x with
  | some .null => d
  | some v => v
  | none => d

/-- Optional-chaining property access `x?.key`: only objects expose the manifest
keys used by the source; on `null`/`undefined`/primitives it yields `undefined`. -/
def getField (x : Option JValue) (key : String) : Option JValue :=
  match x with
  | some (.obj fields) => lookupA fields key
  | _ => none

/-- Own enumerable entries of a value, as produced by object spread `{...v}`:
objects give their fields, strings and arrays their indexed elements, and
`null`/`undefined`/primitives give nothing. -/
def spreadEntries : JValue → JObject
  | .obj fields => fields
  | .str s => s.data.enum.map fun p => (toString p.1, JValue.str (String.mk [p.2]))
  | .arr elems => elems.enum.map fun p => (toString p.1, p.2)
  | _ => []

/-- Spread of a possibly-absent value: `{...x}` with `x` possibly `undefined`. -/
def spreadOpt (x : Option JValue) : JObject :=
  match x with
  | some v => spreadEntries v
  | none => []

/-- Evaluation of an object literal built from a list of property operations
(spread entries followed by explicit assignments), applied left to right. -/
def objFromEntries (entries : JObject) : JObject :=
  entries.foldl (fun o kv => assocSet o kv.1 kv.2) []

/-- The `scripts` object of the starter manifest (source lines 25-34):
spread of `pkg.scripts`, then `dev: pkg.scripts?.dev || <echo placeholder>`,
then five unconditional default script entries. -/
def mergedScripts (pkg : JObject) : JObject :=
  let base := objFromEntries (spreadOpt (lookupA pkg "scripts"))
  let o := assocSet base "dev"
    (jsOr (getField (lookupA pkg "scripts") "dev")
      (.str "echo \"Plug your preferred framework dev server here (e.g. vite dev)\""))
  let o := assocSet o "typecheck" (.str "tsc --noEmit")
  let o := assocSet o "build:css"
    (.str "tailwindcss -i ./src/styles/index.css -o ./dist/styles.css --minify")
  let o := assocSet o "build" (.str "npm run typecheck && npm run build:css")
  let o := assocSet o "lint" (.str "eslint \"src/**/*.\x7bts,tsx\x7d\" --max-warnings=0")
  assocSet o "format" (.str "prettier --write \"src/**/*.\x7bts,tsx,css,md\x7d\"")

/-- The `dependencies` object of the starter manifest (source lines 35-42):
spread of `pkg.dependencies || {}`, then five guarded default entries of the
shape `name: pkg.dependencies?.name || <default range>`. -/
def mergedDependencies (pkg : JObject) : JObject :=
  let deps := lookupA pkg "dependencies"
  let base := objFromEntries (spreadEntries (jsOr deps (.obj [])))
  let o := assocSet base "react" (jsOr (getField deps "react") (.str "^18.3.1"))
  let o := assocSet o "react-dom" (jsOr (getField deps "react-dom") (.str "^18.3.1"))
  let o := assocSet o "@mindfiredigital/ignix-ui"
    (jsOr (getField deps "@mindfiredigital/ignix-ui") (.str "^1.0.5"))
  let o := assocSet o "clsx" (jsOr (getField deps "clsx") (.str "^2.1.1"))
  assocSet o "tailwind-merge" (jsOr (getField deps "tailwind-merge") (.str "^3.0.2"))

/-- The `devDependencies` object of the starter manifest (source lines 43-56):
spread of `pkg.devDependencies || {}`, then eleven unconditional default entries. -/
def mergedDevDependencies (pkg : JObject) : JObject :=
  let devDeps := lookupA pkg "devDependencies"
  let base := objFromEntries (spreadEntries (jsOr devDeps (.obj [])))
  let o := assocSet base "typescript" (.str "^5.6.2")
  let o := assocSet o "@types/react" (.str "^18.3.5")
  let o := assocSet o "@types/react-dom" (.str "^18.3.0")
  let o := assocSet o "tailwindcss" (.str "^3.4.14")
  let o := assocSet o "postcss" (.str "^8.4.41")
  let o := assocSet o "autoprefixer" (.str "^10.4.20")
  let o := assocSet o "eslint" (.str "^9.11.1")
  let o := assocSet o "@typescript-eslint/parser" (.str "^8.7.0")
  let o := assocSet o "@typescript-eslint/eslint-plugin" (.str "^8.7.0")
  let o := assocSet o "prettier" (.str "^3.3.3")
  assocSet o "prettier-plugin-tailwindcss" (.str "^0.6.6")

/-- The `starterPkg` object literal of `createUniversalPackageJson`
(source lines 20-57), as a function of the existing manifest `pkg`. -/
def buildStarterPkg (pkg : JObject) : JObject :=
  [("name", jsOr (lookupA pkg "name") (.str "ignix-universal-app")),
   ("version", jsOr (lookupA pkg "version") (.str "0.1.0")),
   ("private", jsNullish (lookupA pkg "private") (.bool true)),
   ("type", jsOr (lookupA pkg "type") (.str "module")),
   ("scripts", .obj (mergedScripts pkg)),
   ("dependencies", .obj (mergedDependencies pkg)),
   ("devDependencies", .obj (mergedDevDependencies pkg))]

/-- Outcome of the attempt to read `root/package.json` (source lines 11-18):
the file may be absent, present but unparsable (`readJSON` throws), or parsed. -/
inductive ReadResult where
  | noFile
  | unparsable
  | parsed (pkg : JObject)

/-- Severity of a log record emitted through the injected logger. -/
inductive LogLevel where
  | info
  | warn
deriving DecidableEq

/-- Behaviour of `createUniversalPackageJson` as a function of the read outcome:
the manifest written to `root/package.json` together with the log records.
An absent file leaves `pkg = {}`; a parse failure is caught, logs a warning and
leaves `pkg = {}`; a parsed manifest logs an info record and is merged. -/
def runCreateUniversalPackageJson : ReadResult → JObject × List LogLevel
  | .noFile => (buildStarterPkg [], [])
  | .unparsable => (buildStarterPkg [], [.warn])
  | .parsed pkg => (buildStarterPkg pkg, [.info])

/-- The fixed default manifest: the document `createUniversalPackageJson` writes
when no existing manifest contributes anything (spec section 8, first property). -/
def defaultStarterManifest : JObject :=
  [("name", .str "ignix-universal-app"),
   ("version", .str "0.1.0"),
   ("private", .bool true),
   ("type", .str "module"),
   ("scripts", .obj
     [("dev", .str "echo \"Plug your preferred framework dev server here (e.g. vite dev)\""),
      ("typecheck", .str "tsc --noEmit"),
      ("build:css", .str "tailwindcss -i ./src/styles/index.css -o ./dist/styles.css --minify"),
      ("build", .str "npm run typecheck && npm run build:css"),
      ("lint", .str "eslint \"src/**/*.\x7bts,tsx\x7d\" --max-warnings=0"),
      ("format", .str "prettier --write \"src/**/*.\x7bts,tsx,css,md\x7d\"")]),
   ("dependencies", .obj
     [("react", .str "^18.3.1"),
      ("react-dom", .str "^18.3.1"),
      ("@mindfiredigital/ignix-ui", .str "^1.0.5"),
      ("clsx", .str "^2.1.1"),
      ("tailwind-merge", .str "^3.0.2")]),
   ("devDependencies", .obj
     [("typescript", .str "^5.6.2"),
      ("@types/react", .str "^18.3.5"),
      ("@types/react-dom", .str "^18.3.0"),
      ("tailwindcss", .str "^3.4.14"),
      ("postcss", .str "^8.4.41"),
      ("autoprefixer", .str "^10.4.20"),
      ("eslint", .str "^9.11.1"),
      ("@typescript-eslint/parser", .str "^8.7.0"),
      ("@typescript-eslint/eslint-plugin", .str "^8.7.0"),
      ("prettier", .str "^3.3.3"),
      ("prettier-plugin-tailwindcss", .str "^0.6.6")])]

/-- Content of a file on disk: a structured document written with `fs.writeJSON`
(always serialized deterministically with 2-space indentation), or raw text
written with `fs.writeFile`. -/
inductive FileData where
  | json (v : JValue)
  | text (s : String)

/-- File-system state under the target root: files written so far (path, content,
in creation order) and directories ensured so far.  Paths are relative to root,
as produced by `path.join(root, ...)`. -/
structure FS where
  files : List (String × FileData)
  dirs : List String

/-- The empty target root: no files, no directories created yet. -/
def FS.empty : FS := ⟨[], []⟩

/-- Overwrite-or-create semantics of `fs.writeFile` / `fs.writeJSON`. -/
def writeFileFS (p : String) (d : FileData) (fs : FS) : FS :=
  { fs with files := assocSet fs.files p d }

/-- Semantics of `fs.ensureDir`: create the directory if absent, else no-op. -/
def ensureDirFS (p : String) (fs : FS) : FS :=
  if p ∈ fs.dirs then fs else { fs with dirs := fs.dirs ++ [p] }

/-- Result of `fs.pathExists` / `fs.readJSON` on `root/package.json` in state
`fs`: a stored JSON object parses back to itself, while raw text standing for a
corrupt file (or a non-object document) is treated as the unparsable case. -/
def readPackageJson (fs : FS) : ReadResult :=
  match lookupA fs.files "package.json" with
  | none => .noFile
  | some (.json (.obj o)) => .parsed o
  | some _ => .unparsable

/-- File-system action of `createUniversalPackageJson` (source lines 7-60). -/
def createUniversalPackageJson (fs : FS) : FS :=
  writeFileFS "package.json"
    (.json (.obj (runCreateUniversalPackageJson (readPackageJson fs)).1)) fs

/-- The fixed `tsconfig.json` document (source lines 63-83). -/
def tsconfigJson : JValue :=
  .obj
    [("compilerOptions", .obj
      [("target", .str "ES2020"),
       ("lib", .arr [.str "DOM", .str "DOM.Iterable", .str "ES2020"]),
       ("module", .str "ESNext"),
       ("moduleResolution", .str "Bundler"),
       ("strict", .bool true),
       ("noEmit", .bool true),
       ("skipLibCheck", .bool false),
       ("forceConsistentCasingInFileNames", .bool true),
       ("esModuleInterop", .bool true),
       ("resolveJsonModule", .bool true),
       ("jsx", .str "react-jsx"),
       ("baseUrl", .str "."),
       ("paths", .obj [("@/*", .arr [.str "src/*"])])]),
     ("include", .arr [.str "src"]),
     ("exclude", .arr [.str "node_modules", .str "dist"])]

/-- File-system action of `createUniversalTsconfig` (source lines 62-86). -/
def createUniversalTsconfig (fs : FS) : FS :=
  writeFileFS "tsconfig.json" (.json tsconfigJson) fs
def tailwindConfigContent : String :=
  "/** @type \x7bimport(\x27tailwindcss\x27).Config\x7d */\nmodule.exports = \x7b\n  darkMode: [\x27class\x27, \x27[data-theme=\"dark\"]\x27],\n  content: [\n    \x27./src/components/**/*.\x7bts,tsx,js,jsx\x7d\x27,\n    \x27./src/pages/**/*.\x7bts,tsx,js,jsx\x7d\x27,\n    \x27./node_modules/@mindfiredigital/ignix-ui/**/*.\x7bjs,ts,jsx,tsx\x7d\x27,\n  ],\n  theme: \x7b\n    extend: \x7b\n      colors: \x7b\n        background: \x27var(--background)\x27,\n        foreground: \x27var(--foreground)\x27,\n        primary: \x7b\n          DEFAULT: \x27var(--primary)\x27,\n          foreground: \x27var(--primary-foreground)\x27,\n        \x7d,\n        secondary: \x7b\n          DEFAULT: \x27var(--secondary)\x27,\n          foreground: \x27var(--secondary-foreground)\x27,\n        \x7d,\n        muted: \x7b\n          DEFAULT: \x27var(--muted)\x27,\n          foreground: \x27var(--muted-foreground)\x27,\n        \x7d,\n        accent: \x7b\n          DEFAULT: \x27var(--accent)\x27,\n          foreground: \x27var(--accent-foreground)\x27,\n        \x7d,\n        border: \x27var(--border)\x27,\n        input: \x27var(--input)\x27,\n        ring: \x27var(--ring)\x27,\n      \x7d,\n    \x7d,\n  \x7d,\n  plugins: [],\n\x7d;\n"

def postcssConfigContent : String :=
  "module.exports = \x7b\n  plugins: \x7b\n    tailwindcss: \x7b\x7d,\n    autoprefixer: \x7b\x7d,\n  \x7d,\n\x7d;\n"

def ignixConfigContent : String :=
  "/* eslint-env node */\n/** @type \x7bimport(\x27@mindfiredigital/ignix-cli\x27).IgnixConfig\x7d */\nmodule.exports = \x7b\n  registryUrl:\n    \x27https://raw.githubusercontent.com/mindfiredigital/ignix-ui/main/packages/registry/registry.json\x27,\n  themeUrl:\n    \x27https://raw.githubusercontent.com/mindfiredigital/ignix-ui/main/packages/registry/themes.json\x27,\n  componentsDir: \x27src/components\x27,\n  themesDir: \x27src/styles/themes\x27,\n\x7d;\n"

def uiShellContent : String :=
  "import \x7b Button, Card \x7d from \x27@mindfiredigital/ignix-ui\x27;\n\nexport function UiShell() \x7b\n  return (\n    <section className=\"space-y-6 rounded-2xl border border-border bg-background/80 p-8 shadow-sm backdrop-blur\">\n      <header>\n        <p className=\"text-sm uppercase tracking-widest text-muted-foreground\">Ignix UI</p>\n        <h1 className=\"text-3xl font-semibold\">Framework-agnostic starter</h1>\n        <p className=\"mt-2 text-base text-muted-foreground\">\n          Compose Tailwind primitives, strict TypeScript types, and Ignix UI components in any React\n          runtime: Next.js, Remix, Vite, Expo Router for web, or custom design systems.\n        </p>\n      </header>\n      <Card className=\"space-y-4 p-6\">\n        <div>\n          <h2 className=\"text-lg font-medium\">Drop-in ready</h2>\n          <p className=\"text-sm text-muted-foreground\">\n            Add your preferred router and renderer, wire the exported pages, and keep this starter as\n            a shared UI workspace.\n          </p>\n        </div>\n        <Button size=\"lg\" className=\"w-full sm:w-auto\">\n          Start shipping\n        </Button>\n      </Card>\n    </section>\n  );\n\x7d\n"

def pageContentText : String :=
  "import \x7b UiShell \x7d from \x27../components/UiShell\x27;\n\nexport function HomePage() \x7b\n  return (\n    <main className=\"min-h-screen bg-gradient-to-b from-background via-background to-muted px-4 py-16\">\n      <div className=\"mx-auto flex w-full max-w-4xl flex-col gap-4 text-foreground\">\n        <UiShell />\n        <section className=\"rounded-2xl border border-dashed border-border p-6 text-sm text-muted-foreground\">\n          <p className=\"font-medium text-foreground\">Plug me anywhere</p>\n          <ul className=\"list-inside list-disc space-y-2 pt-2\">\n            <li>Next.js / Remix / Expo Router: import the components into your route files</li>\n            <li>Vite / Rspack / Webpack: mount \x60HomePage\x60 in your entry point</li>\n            <li>Design systems: re-export \x60UiShell\x60 from a shared package</li>\n          </ul>\n        </section>\n      </div>\n    </main>\n  );\n\x7d\n\nexport default HomePage;\n"

def stylesContent : String :=
  "@tailwind base;\n@tailwind components;\n@tailwind utilities;\n\n:root \x7b\n  --background: 0 0% 100%;\n  --foreground: 224 71% 4%;\n  --primary: 222.2 47.4% 11.2%;\n  --primary-foreground: 210 40% 98%;\n  --secondary: 210 40% 96.1%;\n  --secondary-foreground: 222.2 47.4% 11.2%;\n  --muted: 210 40% 96.1%;\n  --muted-foreground: 215.4 16.3% 46.9%;\n  --accent: 210 40% 96.1%;\n  --accent-foreground: 222.2 47.4% 11.2%;\n  --border: 214.3 31.8% 91.4%;\n  --input: 214.3 31.8% 91.4%;\n  --ring: 222.2 84% 4.9%;\n\x7d\n\n.dark \x7b\n  --background: 222.2 84% 4.9%;\n  --foreground: 210 40% 98%;\n  --primary: 210 40% 98%;\n  --primary-foreground: 222.2 47.4% 11.2%;\n  --secondary: 217.2 32.6% 17.5%;\n  --secondary-foreground: 210 40% 98%;\n  --muted: 217.2 32.6% 17.5%;\n  --muted-foreground: 215 20.2% 65.1%;\n  --accent: 217.2 32.6% 17.5%;\n  --accent-foreground: 210 40% 98%;\n  --border: 217.2 32.6% 17.5%;\n  --input: 217.2 32.6% 17.5%;\n  --ring: 212.7 26.8% 83.9%;\n\x7d\n\nbody \x7b\n  @apply bg-background text-foreground antialiased;\n\x7d\n"

def gitignoreContent : String :=
  "node_modules\ndist\n.turbo\n.next\n.vercel\n.cache\n.env\n.env.*\n*.log\n*.lock\n.DS_Store\n"

def readmeContent : String :=
  "# Ignix UI Universal Starter\n\nA framework-agnostic React + TypeScript + Tailwind starter wired for Ignix UI. Drop these folders into any framework (Next.js, Remix, Gatsby, Vite, Expo Router for web) or keep them in a standalone UI workspace.\n\n## What\x27s inside\n\n- ✅ Strict TypeScript configuration with sensible aliases\n- ✅ Tailwind CSS v3+ with design tokens that mirror Ignix UI defaults\n- ✅ Ready-to-import Ignix UI component examples (\x60UiShell\x60, \x60HomePage\x60)\n- ✅ Opinionated folder structure:\n  - \x60src/components\x60 for reusable UI\n  - \x60src/pages\x60 for route-level views\n  - \x60src/styles\x60 for global and theme styles\n- ✅ Build hints for CSS + type-check pipelines\n\n## Scripts\n\n- \x60npm run dev\x60 – attach your framework runner (defaults to a placeholder echo)\n- \x60npm run typecheck\x60 – zero-emission strict TypeScript check\n- \x60npm run build:css\x60 – compiles Tailwind to \x60dist/styles.css\x60\n- \x60npm run build\x60 – runs both to keep CI happy\n- \x60npm run lint\x60 / \x60npm run format\x60 – optional quality gates\n\n## Hook it into your framework\n\n1. Copy \x60src/components\x60, \x60src/pages\x60, and \x60src/styles\x60 into your app (or keep this repo dedicated to UI).\n2. Ensure your bundler resolves \x60@/*\x60 to \x60src/*\x60 (Next.js, Remix, Vite already do).\n3. Import \x60HomePage\x60 from \x60src/pages/index.tsx\x60 wherever your framework expects a view component.\n4. Keep Tailwind running:\n\n   \x60\x60\x60bash\n   npm install\n   npm run build:css # or tailwindcss -w for watch mode\n   \x60\x60\x60\n\n## Ignix CLI integration\n\n- Add more components: \x60npx ignix add <component-name>\x60\n- Browse starters: \x60npx ignix starters\x60\n- Manage themes: \x60npx ignix themes list\x60\n\n## Next steps\n\n1. Initialize git: \x60git init && git add . && git commit -m \"init ignix universal starter\"\x60\n2. Wire the exported components into your chosen framework.\n3. Deploy with the tooling you already use (Vercel, Netlify, Render, Docker, etc.).\n\nHappy shipping! 🚀\n"

/-- File-system action of `createUniversalTailwindConfig` (source lines 88-129). -/
def createUniversalTailwindConfig (fs : FS) : FS :=
  writeFileFS "tailwind.config.js" (.text tailwindConfigContent) fs

/-- File-system action of `createUniversalPostCSSConfig` (source lines 131-141). -/
def createUniversalPostCSSConfig (fs : FS) : FS :=
  writeFileFS "postcss.config.js" (.text postcssConfigContent) fs

/-- The fixed `.eslintrc.json` document (source lines 144-166). -/
def eslintConfigJson : JValue :=
  .obj
    [("env", .obj [("browser", .bool true), ("es2022", .bool true)]),
     ("parser", .str "@typescript-eslint/parser"),
     ("parserOptions", .obj
       [("ecmaVersion", .str "latest"),
        ("sourceType", .str "module"),
        ("ecmaFeatures", .obj [("jsx", .bool true)])]),
     ("plugins", .arr [.str "@typescript-eslint"]),
     ("extends", .arr
       [.str "eslint:recommended", .str "plugin:@typescript-eslint/recommended"]),
     ("ignorePatterns", .arr [.str "dist", .str "node_modules"]),
     ("rules", .obj
       [("@typescript-eslint/no-unused-vars", .arr
         [.str "warn",
          .obj [("argsIgnorePattern", .str "^_"), ("varsIgnorePattern", .str "^_")]])])]

/-- File-system action of `createUniversalEslintConfig` (source lines 143-169). -/
def createUniversalEslintConfig (fs : FS) : FS :=
  writeFileFS ".eslintrc.json" (.json eslintConfigJson) fs

/-- File-system action of `createUniversalIgnixConfig` (source lines 171-185). -/
def createUniversalIgnixConfig (fs : FS) : FS :=
  writeFileFS "ignix.config.js" (.text ignixConfigContent) fs

/-- File-system action of `createUniversalSrcStructure` (source lines 187-293):
ensure the three `src` subdirectories and `dist`, then write the example
component, the example page and the global stylesheet. -/
def createUniversalSrcStructure (fs : FS) : FS :=
  let fs := ensureDirFS "src/components" fs
  let fs := ensureDirFS "src/pages" fs
  let fs := ensureDirFS "src/styles" fs
  let fs := ensureDirFS "dist" fs
  let fs := writeFileFS "src/components/UiShell.tsx" (.text uiShellContent) fs
  let fs := writeFileFS "src/pages/index.tsx" (.text pageContentText) fs
  writeFileFS "src/styles/index.css" (.text stylesContent) fs

/-- File-system action of `createUniversalGitignore` (source lines 295-310). -/
def createUniversalGitignore (fs : FS) : FS :=
  writeFileFS ".gitignore" (.text gitignoreContent) fs

/-- File-system action of `createUniversalReadme` (source lines 312-364). -/
def createUniversalReadme (fs : FS) : FS :=
  writeFileFS "README.md" (.text readmeContent) fs

/-- The Static Emitter operations: every scaffolding operation other than the
manifest merger (spec section 2). -/
def staticEmitters : List (FS → FS) :=
  [createUniversalTsconfig,
   createUniversalTailwindConfig,
   createUniversalPostCSSConfig,
   createUniversalEslintConfig,
   createUniversalIgnixConfig,
   createUniversalSrcStructure,
   createUniversalGitignore,
   createUniversalReadme]

/-- Running every emitter operation exactly once, manifest merger first. -/
def runAllEmitters (fs : FS) : FS :=
  createUniversalReadme
    (createUniversalGitignore
      (createUniversalSrcStructure
        (createUniversalIgnixConfig
          (createUniversalEslintConfig
            (createUniversalPostCSSConfig
              (createUniversalTailwindConfig
                (createUniversalTsconfig
                  (createUniversalPackageJson fs))))))))

/-! Association-list lemmas: lookup and assignment over insertion-ordered objects. -/

/-- Keys of an association list, in order. -/
def keysOf {α : Type} : List (String × α) → List String
  | [] => []
  | (k, _) :: rest => k :: keysOf rest

/-- Keys of an association list are pairwise distinct (true of any object
obtained from `JSON.parse` and preserved by every object literal below). -/
def NodupKeys {α : Type} (m : List (String × α)) : Prop :=
  (keysOf m).Nodup

theorem lookupA_assocSet {α : Type} (m : List (String × α)) (k k' : String) (v : α) :
    lookupA (assocSet m k v) k' = if k = k' then some v else lookupA m k' := by
  induction m with
  | nil => by_cases h : k = k' <;> simp [assocSet, lookupA, h]
  | cons kv rest ih =>
    obtain ⟨a, b⟩ := kv
    by_cases hak : a = k
    · subst hak
      by_cases hk' : a = k' <;> simp [assocSet, lookupA, hk']
    · by_cases hk' : a = k'
      · subst hk'
        have h : ¬ k = a := fun h => hak h.symm
        simp [assocSet, lookupA, hak, h]
      · simp [assocSet, lookupA, hak, hk', ih]

theorem assocSet_eq_self {α : Type} {m : List (String × α)} {k : String} {v : α}
    (h : lookupA m k = some v) : assocSet m k v = m := by
  induction m with
  | nil => simp [lookupA] at h
  | cons kv rest ih =>
    obtain ⟨a, b⟩ := kv
    by_cases hak : a = k
    · subst hak
      simp [lookupA] at h
      simp [assocSet, h]
    · simp [lookupA, hak] at h
      simp [assocSet, hak, ih h]

theorem isSome_lookupA_assocSet {α : Type} {m : List (String × α)} {k k' : String} {v : α}
    (h : (lookupA m k').isSome = true) : (lookupA (assocSet m k v) k').isSome = true := by
  rw [lookupA_assocSet]
  split <;> simp [h]

theorem lookupA_eq_none_append {α : Type} {m₁ m₂ : List (String × α)} {k : String}
    (h : lookupA m₁ k = none) : lookupA (m₁ ++ m₂) k = lookupA m₂ k := by
  induction m₁ with
  | nil => rfl
  | cons kv rest ih =>
    obtain ⟨a, b⟩ := kv
    by_cases hak : a = k
    · simp [lookupA, hak] at h
    · simp [lookupA, hak] at h ⊢
      exact ih h

theorem assocSet_of_lookup_none {α : Type} {m : List (String × α)} {k : String} {v : α}
    (h : lookupA m k = none) : assocSet m k v = m ++ [(k, v)] := by
  induction m with
  | nil => rfl
  | cons kv rest ih =>
    obtain ⟨a, b⟩ := kv
    by_cases hak : a = k
    · simp [lookupA, hak] at h
    · simp [lookupA, hak] at h
      simp [assocSet, hak, ih h]

theorem mem_keysOf_of_mem {α : Type} {m : List (String × α)} {kv : String × α}
    (h : kv ∈ m) : kv.1 ∈ keysOf m := by
  induction m with
  | nil => simp at h
  | cons kv₀ rest ih =>
    obtain ⟨a, b⟩ := kv₀
    rcases List.mem_cons.mp h with h | h
    · simp [keysOf, h]
    · simp [keysOf, ih h]

theorem mem_keysOf_assocSet {α : Type} {m : List (String × α)} {k a : String} {v : α}
    (h : a ∈ keysOf (assocSet m k v)) : a ∈ keysOf m ∨ a = k := by
  induction m with
  | nil =>
    simp [assocSet, keysOf] at h
    simp [h]
  | cons kv rest ih =>
    obtain ⟨a₀, b₀⟩ := kv
    by_cases hak : a₀ = k
    · subst hak
      simp [assocSet, keysOf] at h ⊢
      rcases h with h | h
      · exact Or.inr h
      · exact Or.inl (Or.inr h)
    · simp [assocSet, hak, keysOf] at h ⊢
      rcases h with h | h
      · simp [h]
      · rcases ih h with h' | h'
        · simp [h']
        · simp [h']

theorem nodupKeys_assocSet {α : Type} {m : List (String × α)} {k : String} {v : α}
    (hm : NodupKeys m) : NodupKeys (assocSet m k v) := by
  induction m with
  | nil => simp [NodupKeys, assocSet, keysOf]
  | cons kv rest ih =>
    obtain ⟨a, b⟩ := kv
    simp [NodupKeys, keysOf] at hm
    by_cases hak : a = k
    · subst hak
      simp [NodupKeys, assocSet, keysOf]
      exact hm
    · have h₁ : NodupKeys (assocSet rest k v) := ih hm.2
      simp [NodupKeys, assocSet, hak, keysOf]
      refine ⟨?_, h₁⟩
      intro hmem
      rcases mem_keysOf_assocSet hmem with h' | h'
      · exact hm.1 h'
      · exact hak h'

theorem nodupKeys_foldl_assocSet (m o : List (String × JValue)) (ho : NodupKeys o) :
    NodupKeys (m.foldl (fun acc kv => assocSet acc kv.1 kv.2) o) := by
  induction m generalizing o with
  | nil => simpa using ho
  | cons kv rest ih =>
    rw [List.foldl_cons]
    exact ih _ (nodupKeys_assocSet ho)

theorem nodupKeys_objFromEntries (m : JObject) : NodupKeys (objFromEntries m) :=
  nodupKeys_foldl_assocSet m [] (by simp [NodupKeys, keysOf])

theorem foldl_assocSet_of_disjoint (m o : List (String × JValue))
    (hm : NodupKeys m) (ho : ∀ kv ∈ m, lookupA o kv.1 = none) :
    m.foldl (fun acc kv => assocSet acc kv.1 kv.2) o = o ++ m := by
  induction m generalizing o with
  | nil => simp
  | cons kv rest ih =>
    obtain ⟨k, v⟩ := kv
    simp [NodupKeys, keysOf] at hm
    have hnone : lookupA o k = none := ho (k, v) (by simp)
    have hrest : ∀ kv' ∈ rest, lookupA (o ++ [(k, v)]) kv'.1 = none := by
      intro kv' hkv'
      have hne : kv'.1 ≠ k := fun he => hm.1 (he ▸ mem_keysOf_of_mem hkv')
      have hkk : ¬ k = kv'.1 := fun h => hne h.symm
      rw [lookupA_eq_none_append (ho kv' (List.mem_cons_of_mem _ hkv'))]
      simp [lookupA, hkk]
    rw [List.foldl_cons, assocSet_of_lookup_none hnone, ih (o ++ [(k, v)]) hm.2 hrest,
      List.append_assoc]
    rfl

theorem objFromEntries_eq_self {m : JObject} (hm : NodupKeys m) : objFromEntries m = m := by
  have h := foldl_assocSet_of_disjoint m [] hm (by intro kv _; rfl)
  simpa [objFromEntries] using h

/-! Lemmas about the JavaScript idioms used by the merge. -/

theorem truthy_jsOr {x : Option JValue} {d : JValue} (h : truthy d = true) :
    truthy (jsOr x d) = true := by
  cases x with
  | none => simpa [jsOr] using h
  | some v => by_cases hv : truthy v <;> simp [jsOr, hv, h]

theorem jsOr_some_truthy {v : JValue} (d : JValue) (h : truthy v = true) :
    jsOr (some v) d = v := by
  simp [jsOr, h]

theorem jsOr_jsOr (x : Option JValue) (d : JValue) (h : truthy d = true) :
    jsOr (some (jsOr x d)) d = jsOr x d :=
  jsOr_some_truthy d (truthy_jsOr h)

theorem jsNullish_some_ne_null {v : JValue} (d : JValue) (h : v ≠ JValue.null) :
    jsNullish (some v) d = v := by
  cases v with
  | null => exact absurd rfl h
  | bool b => rfl
  | num n => rfl
  | str s => rfl
  | arr xs => rfl
  | obj fields => rfl

theorem jsNullish_ne_null {x : Option JValue} {d : JValue} (h : d ≠ JValue.null) :
    jsNullish x d ≠ JValue.null := by
  cases x with
  | none => simpa [jsNullish] using h
  | some v =>
    cases v with
    | null => simpa [jsNullish] using h
    | bool b => simp [jsNullish]
    | num n => simp [jsNullish]
    | str s => simp [jsNullish]
    | arr xs => simp [jsNullish]
    | obj fields => simp [jsNullish]

theorem jsNullish_jsNullish (x : Option JValue) (d : JValue) (h : d ≠ JValue.null) :
    jsNullish (some (jsNullish x d)) d = jsNullish x d :=
  jsNullish_some_ne_null d (jsNullish_ne_null h)

/-! Structure of the three merged nested maps. -/

theorem nodupKeys_mergedScripts (pkg : JObject) : NodupKeys (mergedScripts pkg) := by
  simp only [mergedScripts]
  exact nodupKeys_assocSet (nodupKeys_assocSet (nodupKeys_assocSet (nodupKeys_assocSet
    (nodupKeys_assocSet (nodupKeys_assocSet (nodupKeys_objFromEntries _))))))

theorem nodupKeys_mergedDependencies (pkg : JObject) : NodupKeys (mergedDependencies pkg) := by
  simp only [mergedDependencies]
  exact nodupKeys_assocSet (nodupKeys_assocSet (nodupKeys_assocSet (nodupKeys_assocSet
    (nodupKeys_assocSet (nodupKeys_objFromEntries _)))))

theorem nodupKeys_mergedDevDependencies (pkg : JObject) :
    NodupKeys (mergedDevDependencies pkg) := by
  simp only [mergedDevDependencies]
  exact nodupKeys_assocSet (nodupKeys_assocSet (nodupKeys_assocSet (nodupKeys_assocSet
    (nodupKeys_assocSet (nodupKeys_assocSet (nodupKeys_assocSet (nodupKeys_assocSet
      (nodupKeys_assocSet (nodupKeys_assocSet (nodupKeys_assocSet
        (nodupKeys_objFromEntries _)))))))))))

/-- Values the merged `scripts` map always carries at the six default keys,
whatever the existing manifest contained. -/
theorem mergedScripts_fixed (pkg : JObject) :
    lookupA (mergedScripts pkg) "dev"
        = some (jsOr (getField (lookupA pkg "scripts") "dev")
            (JValue.str "echo \"Plug your preferred framework dev server here (e.g. vite dev)\""))
      ∧ lookupA (mergedScripts pkg) "typecheck" = some (JValue.str "tsc --noEmit")
      ∧ lookupA (mergedScripts pkg) "build:css"
        = some (JValue.str "tailwindcss -i ./src/styles/index.css -o ./dist/styles.css --minify")
      ∧ lookupA (mergedScripts pkg) "build"
        = some (JValue.str "npm run typecheck && npm run build:css")
      ∧ lookupA (mergedScripts pkg) "lint"
        = some (JValue.str "eslint \"src/**/*.\x7bts,tsx\x7d\" --max-warnings=0")
      ∧ lookupA (mergedScripts pkg) "format"
        = some (JValue.str "prettier --write \"src/**/*.\x7bts,tsx,css,md\x7d\"") := by
  refine ⟨?_, ?_, ?_, ?_, ?_, ?_⟩ <;> simp [mergedScripts, lookupA_assocSet]

/-- Values the merged `dependencies` map always carries at the five default keys. -/
theorem mergedDependencies_fixed (pkg : JObject) :
    lookupA (mergedDependencies pkg) "react"
        = some (jsOr (getField (lookupA pkg "dependencies") "react") (JValue.str "^18.3.1"))
      ∧ lookupA (mergedDependencies pkg) "react-dom"
        = some (jsOr (getField (lookupA pkg "dependencies") "react-dom") (JValue.str "^18.3.1"))
      ∧ lookupA (mergedDependencies pkg) "@mindfiredigital/ignix-ui"
        = some (jsOr (getField (lookupA pkg "dependencies") "@mindfiredigital/ignix-ui")
            (JValue.str "^1.0.5"))
      ∧ lookupA (mergedDependencies pkg) "clsx"
        = some (jsOr (getField (lookupA pkg "dependencies") "clsx") (JValue.str "^2.1.1"))
      ∧ lookupA (mergedDependencies pkg) "tailwind-merge"
        = some (jsOr (getField (lookupA pkg "dependencies") "tailwind-merge")
            (JValue.str "^3.0.2")) := by
  refine ⟨?_, ?_, ?_, ?_, ?_⟩ <;> simp [mergedDependencies, lookupA_assocSet]

/-- Values the merged `devDependencies` map always carries at the eleven default keys. -/
theorem mergedDevDependencies_fixed (pkg : JObject) :
    lookupA (mergedDevDependencies pkg) "typescript" = some (JValue.str "^5.6.2")
      ∧ lookupA (mergedDevDependencies pkg) "@types/react" = some (JValue.str "^18.3.5")
      ∧ lookupA (mergedDevDependencies pkg) "@types/react-dom" = some (JValue.str "^18.3.0")
      ∧ lookupA (mergedDevDependencies pkg) "tailwindcss" = some (JValue.str "^3.4.14")
      ∧ lookupA (mergedDevDependencies pkg) "postcss" = some (JValue.str "^8.4.41")
      ∧ lookupA (mergedDevDependencies pkg) "autoprefixer" = some (JValue.str "^10.4.20")
      ∧ lookupA (mergedDevDependencies pkg) "eslint" = some (JValue.str "^9.11.1")
      ∧ lookupA (mergedDevDependencies pkg) "@typescript-eslint/parser"
        = some (JValue.str "^8.7.0")
      ∧ lookupA (mergedDevDependencies pkg) "@typescript-eslint/eslint-plugin"
        = some (JValue.str "^8.7.0")
      ∧ lookupA (mergedDevDependencies pkg) "prettier" = some (JValue.str "^3.3.3")
      ∧ lookupA (mergedDevDependencies pkg) "prettier-plugin-tailwindcss"
        = some (JValue.str "^0.6.6") := by
  refine ⟨?_, ?_, ?_, ?_, ?_, ?_, ?_, ?_, ?_, ?_, ?_⟩ <;>
    simp [mergedDevDependencies, lookupA_assocSet]

/-- When the existing `scripts` map already carries the six default keys with
fitting values, the merge returns it unchanged. -/
theorem mergedScripts_of_fixpoint (q s : JObject)
    (hs : lookupA q "scripts" = some (JValue.obj s))
    (hnd : NodupKeys s)
    (hdev : ∃ dv, lookupA s "dev" = some dv ∧ truthy dv = true)
    (ht : lookupA s "typecheck" = some (JValue.str "tsc --noEmit"))
    (hbc : lookupA s "build:css"
      = some (JValue.str "tailwindcss -i ./src/styles/index.css -o ./dist/styles.css --minify"))
    (hb : lookupA s "build" = some (JValue.str "npm run typecheck && npm run build:css"))
    (hl : lookupA s "lint" = some (JValue.str "eslint \"src/**/*.\x7bts,tsx\x7d\" --max-warnings=0"))
    (hf : lookupA s "format"
      = some (JValue.str "prettier --write \"src/**/*.\x7bts,tsx,css,md\x7d\"")) :
    mergedScripts q = s := by
  obtain ⟨dv, hdv, htr⟩ := hdev
  simp only [mergedScripts, hs, spreadOpt, spreadEntries, getField]
  rw [objFromEntries_eq_self hnd, hdv, jsOr_some_truthy _ htr]
  rw [assocSet_eq_self hdv, assocSet_eq_self ht, assocSet_eq_self hbc,
    assocSet_eq_self hb, assocSet_eq_self hl, assocSet_eq_self hf]

/-- When the existing `dependencies` map already carries the five default keys
with truthy values, the merge returns it unchanged. -/
theorem mergedDependencies_of_fixpoint (q d : JObject)
    (hd : lookupA q "dependencies" = some (JValue.obj d))
    (hnd : NodupKeys d)
    (h1 : ∃ v, lookupA d "react" = some v ∧ truthy v = true)
    (h2 : ∃ v, lookupA d "react-dom" = some v ∧ truthy v = true)
    (h3 : ∃ v, lookupA d "@mindfiredigital/ignix-ui" = some v ∧ truthy v = true)
    (h4 : ∃ v, lookupA d "clsx" = some v ∧ truthy v = true)
    (h5 : ∃ v, lookupA d "tailwind-merge" = some v ∧ truthy v = true) :
    mergedDependencies q = d := by
  obtain ⟨v1, hv1, ht1⟩ := h1
  obtain ⟨v2, hv2, ht2⟩ := h2
  obtain ⟨v3, hv3, ht3⟩ := h3
  obtain ⟨v4, hv4, ht4⟩ := h4
  obtain ⟨v5, hv5, ht5⟩ := h5
  have hbase : jsOr (some (JValue.obj d)) (JValue.obj []) = JValue.obj d :=
    jsOr_some_truthy _ rfl
  simp only [mergedDependencies, hd, getField]
  rw [hbase]
  simp only [spreadEntries]
  rw [objFromEntries_eq_self hnd, hv1, hv2, hv3, hv4, hv5,
    jsOr_some_truthy _ ht1, jsOr_some_truthy _ ht2, jsOr_some_truthy _ ht3,
    jsOr_some_truthy _ ht4, jsOr_some_truthy _ ht5]
  rw [assocSet_eq_self hv1, assocSet_eq_self hv2, assocSet_eq_self hv3,
    assocSet_eq_self hv4, assocSet_eq_self hv5]

/-- When the existing `devDependencies` map already carries the eleven default
keys with the default values, the merge returns it unchanged. -/
theorem mergedDevDependencies_of_fixpoint (q dv : JObject)
    (hd : lookupA q "devDependencies" = some (JValue.obj dv))
    (hnd : NodupKeys dv)
    (h1 : lookupA dv "typescript" = some (JValue.str "^5.6.2"))
    (h2 : lookupA dv "@types/react" = some (JValue.str "^18.3.5"))
    (h3 : lookupA dv "@types/react-dom" = some (JValue.str "^18.3.0"))
    (h4 : lookupA dv "tailwindcss" = some (JValue.str "^3.4.14"))
    (h5 : lookupA dv "postcss" = some (JValue.str "^8.4.41"))
    (h6 : lookupA dv "autoprefixer" = some (JValue.str "^10.4.20"))
    (h7 : lookupA dv "eslint" = some (JValue.str "^9.11.1"))
    (h8 : lookupA dv "@typescript-eslint/parser" = some (JValue.str "^8.7.0"))
    (h9 : lookupA dv "@typescript-eslint/eslint-plugin" = some (JValue.str "^8.7.0"))
    (h10 : lookupA dv "prettier" = some (JValue.str "^3.3.3"))
    (h11 : lookupA dv "prettier-plugin-tailwindcss" = some (JValue.str "^0.6.6")) :
    mergedDevDependencies q = dv := by
  have hbase : jsOr (some (JValue.obj dv)) (JValue.obj []) = JValue.obj dv :=
    jsOr_some_truthy _ rfl
  simp only [mergedDevDependencies, hd]
  rw [hbase]
  simp only [spreadEntries]
  rw [objFromEntries_eq_self hnd]
  rw [assocSet_eq_self h1, assocSet_eq_self h2, assocSet_eq_self h3, assocSet_eq_self h4,
    assocSet_eq_self h5, assocSet_eq_self h6, assocSet_eq_self h7, assocSet_eq_self h8,
    assocSet_eq_self h9, assocSet_eq_self h10, assocSet_eq_self h11]

/-! Stability of the merge under re-running it on its own output. -/

theorem mergedScripts_stable (pkg : JObject) :
    mergedScripts (buildStarterPkg pkg) = mergedScripts pkg := by
  obtain ⟨hdev, ht, hbc, hb, hl, hf⟩ := mergedScripts_fixed pkg
  exact mergedScripts_of_fixpoint _ _ rfl (nodupKeys_mergedScripts pkg)
    ⟨_, hdev, truthy_jsOr rfl⟩ ht hbc hb hl hf

theorem mergedDependencies_stable (pkg : JObject) :
    mergedDependencies (buildStarterPkg pkg) = mergedDependencies pkg := by
  obtain ⟨h1, h2, h3, h4, h5⟩ := mergedDependencies_fixed pkg
  exact mergedDependencies_of_fixpoint _ _ rfl (nodupKeys_mergedDependencies pkg)
    ⟨_, h1, truthy_jsOr rfl⟩ ⟨_, h2, truthy_jsOr rfl⟩ ⟨_, h3, truthy_jsOr rfl⟩
    ⟨_, h4, truthy_jsOr rfl⟩ ⟨_, h5, truthy_jsOr rfl⟩

theorem mergedDevDependencies_stable (pkg : JObject) :
    mergedDevDependencies (buildStarterPkg pkg) = mergedDevDependencies pkg := by
  obtain ⟨h1, h2, h3, h4, h5, h6, h7, h8, h9, h10, h11⟩ := mergedDevDependencies_fixed pkg
  exact mergedDevDependencies_of_fixpoint _ _ rfl (nodupKeys_mergedDevDependencies pkg)
    h1 h2 h3 h4 h5 h6 h7 h8 h9 h10 h11

theorem buildStarterPkg_idem (pkg : JObject) :
    buildStarterPkg (buildStarterPkg pkg) = buildStarterPkg pkg := by
  have hname : lookupA (buildStarterPkg pkg) "name"
      = some (jsOr (lookupA pkg "name") (JValue.str "ignix-universal-app")) := rfl
  have hver : lookupA (buildStarterPkg pkg) "version"
      = some (jsOr (lookupA pkg "version") (JValue.str "0.1.0")) := rfl
  have hpriv : lookupA (buildStarterPkg pkg) "private"
      = some (jsNullish (lookupA pkg "private") (JValue.bool true)) := rfl
  have htype : lookupA (buildStarterPkg pkg) "type"
      = some (jsOr (lookupA pkg "type") (JValue.str "module")) := rfl
  show [("name", jsOr (lookupA (buildStarterPkg pkg) "name") (JValue.str "ignix-universal-app")),
    ("version", jsOr (lookupA (buildStarterPkg pkg) "version") (JValue.str "0.1.0")),
    ("private", jsNullish (lookupA (buildStarterPkg pkg) "private") (JValue.bool true)),
    ("type", jsOr (lookupA (buildStarterPkg pkg) "type") (JValue.str "module")),
    ("scripts", JValue.obj (mergedScripts (buildStarterPkg pkg))),
    ("dependencies", JValue.obj (mergedDependencies (buildStarterPkg pkg))),
    ("devDependencies", JValue.obj (mergedDevDependencies (buildStarterPkg pkg)))]
    = buildStarterPkg pkg
  rw [hname, hver, hpriv, htype, mergedScripts_stable, mergedDependencies_stable,
    mergedDevDependencies_stable,
    jsOr_jsOr _ (JValue.str "ignix-universal-app") (by decide),
    jsOr_jsOr _ (JValue.str "0.1.0") (by decide),
    jsOr_jsOr _ (JValue.str "module") (by decide),
    jsNullish_jsNullish _ (JValue.bool true) (by simp)]
  rfl

/-! File-system lemmas. -/

theorem FS_ext {a b : FS} (hf : a.files = b.files) (hd : a.dirs = b.dirs) : a = b := by
  cases a
  cases b
  simp_all

theorem assocSet_assocSet {α : Type} (m : List (String × α)) (k : String) (v : α) :
    assocSet (assocSet m k v) k v = assocSet m k v :=
  assocSet_eq_self (by rw [lookupA_assocSet]; simp)

theorem writeFileFS_of_lookup {p : String} {d : FileData} {fs : FS}
    (h : lookupA fs.files p = some d) : writeFileFS p d fs = fs := by
  simp [writeFileFS, assocSet_eq_self h]

theorem writeFileFS_writeFileFS (p : String) (d : FileData) (fs : FS) :
    writeFileFS p d (writeFileFS p d fs) = writeFileFS p d fs :=
  writeFileFS_of_lookup (by simp [writeFileFS, lookupA_assocSet])

theorem ensureDirFS_of_mem {p : String} {fs : FS} (h : p ∈ fs.dirs) :
    ensureDirFS p fs = fs := by
  simp [ensureDirFS, h]

theorem mem_dirs_ensureDirFS_self (p : String) (fs : FS) : p ∈ (ensureDirFS p fs).dirs := by
  by_cases h : p ∈ fs.dirs <;> simp [ensureDirFS, h]

theorem mem_dirs_ensureDirFS_of_mem {q : String} (p : String) {fs : FS}
    (h : q ∈ fs.dirs) : q ∈ (ensureDirFS p fs).dirs := by
  by_cases hp : p ∈ fs.dirs <;> simp [ensureDirFS, hp, h]

theorem files_ensureDirFS (p : String) (fs : FS) : (ensureDirFS p fs).files = fs.files := by
  by_cases hp : p ∈ fs.dirs <;> simp [ensureDirFS, hp]

theorem createUniversalSrcStructure_idem (fs : FS) :
    createUniversalSrcStructure (createUniversalSrcStructure fs)
      = createUniversalSrcStructure fs := by
  have hd1 : "src/components" ∈ (createUniversalSrcStructure fs).dirs :=
    mem_dirs_ensureDirFS_of_mem _ (mem_dirs_ensureDirFS_of_mem _
      (mem_dirs_ensureDirFS_of_mem _ (mem_dirs_ensureDirFS_self _ _)))
  have hd2 : "src/pages" ∈ (createUniversalSrcStructure fs).dirs :=
    mem_dirs_ensureDirFS_of_mem _ (mem_dirs_ensureDirFS_of_mem _
      (mem_dirs_ensureDirFS_self _ _))
  have hd3 : "src/styles" ∈ (createUniversalSrcStructure fs).dirs :=
    mem_dirs_ensureDirFS_of_mem _ (mem_dirs_ensureDirFS_self _ _)
  have hd4 : "dist" ∈ (createUniversalSrcStructure fs).dirs :=
    mem_dirs_ensureDirFS_self _ _
  have hf1 : lookupA (createUniversalSrcStructure fs).files "src/components/UiShell.tsx"
      = some (FileData.text uiShellContent) := by
    simp [createUniversalSrcStructure, writeFileFS, lookupA_assocSet]
  have hf2 : lookupA (createUniversalSrcStructure fs).files "src/pages/index.tsx"
      = some (FileData.text pageContentText) := by
    simp [createUniversalSrcStructure, writeFileFS, lookupA_assocSet]
  have hf3 : lookupA (createUniversalSrcStructure fs).files "src/styles/index.css"
      = some (FileData.text stylesContent) := by
    simp [createUniversalSrcStructure, writeFileFS, lookupA_assocSet]
  show writeFileFS "src/styles/index.css" (.text stylesContent)
      (writeFileFS "src/pages/index.tsx" (.text pageContentText)
        (writeFileFS "src/components/UiShell.tsx" (.text uiShellContent)
          (ensureDirFS "dist" (ensureDirFS "src/styles" (ensureDirFS "src/pages"
            (ensureDirFS "src/components" (createUniversalSrcStructure fs)))))))
    = createUniversalSrcStructure fs
  rw [ensureDirFS_of_mem hd1, ensureDirFS_of_mem hd2, ensureDirFS_of_mem hd3,
    ensureDirFS_of_mem hd4, writeFileFS_of_lookup hf1, writeFileFS_of_lookup hf2,
    writeFileFS_of_lookup hf3]

theorem createUniversalPackageJson_eq (fs : FS) :
    createUniversalPackageJson fs
      = writeFileFS "package.json"
          (.json (.obj (runCreateUniversalPackageJson (readPackageJson fs)).1)) fs := rfl

theorem readPackageJson_after_write (fs : FS) :
    readPackageJson (createUniversalPackageJson fs)
      = ReadResult.parsed (runCreateUniversalPackageJson (readPackageJson fs)).1 := by
  simp [createUniversalPackageJson, readPackageJson, writeFileFS, lookupA_assocSet]

/-! Characterization of lookups in the merged nested maps when the existing
manifest carries the corresponding nested object. -/

theorem mergedScripts_lookup_char (pkg s : JObject) (k : String)
    (hs : lookupA pkg "scripts" = some (JValue.obj s)) (hnd : NodupKeys s) :
    lookupA (mergedScripts pkg) k
      = if "format" = k then some (JValue.str "prettier --write \"src/**/*.\x7bts,tsx,css,md\x7d\"")
        else if "lint" = k then some (JValue.str "eslint \"src/**/*.\x7bts,tsx\x7d\" --max-warnings=0")
        else if "build" = k then some (JValue.str "npm run typecheck && npm run build:css")
        else if "build:css" = k then
          some (JValue.str "tailwindcss -i ./src/styles/index.css -o ./dist/styles.css --minify")
        else if "typecheck" = k then some (JValue.str "tsc --noEmit")
        else if "dev" = k then
          some (jsOr (lookupA s "dev")
            (JValue.str "echo \"Plug your preferred framework dev server here (e.g. vite dev)\""))
        else lookupA s k := by
  have hbase : objFromEntries (spreadOpt (some (JValue.obj s))) = s :=
    objFromEntries_eq_self hnd
  simp only [mergedScripts, hs, getField]
  rw [hbase]
  rw [lookupA_assocSet, lookupA_assocSet, lookupA_assocSet, lookupA_assocSet,
    lookupA_assocSet, lookupA_assocSet]

theorem mergedDependencies_lookup_char (pkg d : JObject) (k : String)
    (hd : lookupA pkg "dependencies" = some (JValue.obj d)) (hnd : NodupKeys d) :
    lookupA (mergedDependencies pkg) k
      = if "tailwind-merge" = k then some (jsOr (lookupA d "tailwind-merge") (JValue.str "^3.0.2"))
        else if "clsx" = k then some (jsOr (lookupA d "clsx") (JValue.str "^2.1.1"))
        else if "@mindfiredigital/ignix-ui" = k then
          some (jsOr (lookupA d "@mindfiredigital/ignix-ui") (JValue.str "^1.0.5"))
        else if "react-dom" = k then some (jsOr (lookupA d "react-dom") (JValue.str "^18.3.1"))
        else if "react" = k then some (jsOr (lookupA d "react") (JValue.str "^18.3.1"))
        else lookupA d k := by
  have hbase : objFromEntries (spreadEntries (jsOr (some (JValue.obj d)) (JValue.obj []))) = d :=
    objFromEntries_eq_self hnd
  simp only [mergedDependencies, hd, getField]
  rw [hbase]
  rw [lookupA_assocSet, lookupA_assocSet, lookupA_assocSet, lookupA_assocSet, lookupA_assocSet]

theorem mergedDevDependencies_lookup_char (pkg dvs : JObject) (k : String)
    (hd : lookupA pkg "devDependencies" = some (JValue.obj dvs)) (hnd : NodupKeys dvs) :
    lookupA (mergedDevDependencies pkg) k
      = if "prettier-plugin-tailwindcss" = k then some (JValue.str "^0.6.6")
        else if "prettier" = k then some (JValue.str "^3.3.3")
        else if "@typescript-eslint/eslint-plugin" = k then some (JValue.str "^8.7.0")
        else if "@typescript-eslint/parser" = k then some (JValue.str "^8.7.0")
        else if "eslint" = k then some (JValue.str "^9.11.1")
        else if "autoprefixer" = k then some (JValue.str "^10.4.20")
        else if "postcss" = k then some (JValue.str "^8.4.41")
        else if "tailwindcss" = k then some (JValue.str "^3.4.14")
        else if "@types/react-dom" = k then some (JValue.str "^18.3.0")
        else if "@types/react" = k then some (JValue.str "^18.3.5")
        else if "typescript" = k then some (JValue.str "^5.6.2")
        else lookupA dvs k := by
  have hbase : objFromEntries (spreadEntries (jsOr (some (JValue.obj dvs)) (JValue.obj []))) = dvs :=
    objFromEntries_eq_self hnd
  simp only [mergedDevDependencies, hd]
  rw [hbase]
  rw [lookupA_assocSet, lookupA_assocSet, lookupA_assocSet, lookupA_assocSet,
    lookupA_assocSet, lookupA_assocSet, lookupA_assocSet, lookupA_assocSet,
    lookupA_assocSet, lookupA_assocSet, lookupA_assocSet]

/-! Preservation and membership of existing nested entries under the merge. -/

theorem mergedScripts_mem (pkg s : JObject) (k : String) (v : JValue)
    (hs : lookupA pkg "scripts" = some (JValue.obj s)) (hnd : NodupKeys s)
    (hk : lookupA s k = some v) :
    (lookupA (mergedScripts pkg) k).isSome = true := by
  rw [mergedScripts_lookup_char pkg s k hs hnd]
  split_ifs <;> simp [hk]

theorem mergedScripts_preserves (pkg s : JObject) (k : String) (v : JValue)
    (hs : lookupA pkg "scripts" = some (JValue.obj s)) (hnd : NodupKeys s)
    (hk : lookupA s k = some v)
    (hnotin : k ∉ ["typecheck", "build:css", "build", "lint", "format"])
    (hdev : k = "dev" → truthy v = true) :
    lookupA (mergedScripts pkg) k = some v := by
  simp only [List.mem_cons, List.not_mem_nil, or_false, not_or] at hnotin
  obtain ⟨h1, h2, h3, h4, h5⟩ := hnotin
  rw [mergedScripts_lookup_char pkg s k hs hnd]
  by_cases hd : k = "dev"
  · subst hd
    rw [if_neg (by decide), if_neg (by decide), if_neg (by decide), if_neg (by decide),
      if_neg (by decide), if_pos rfl, hk, jsOr_some_truthy _ (hdev rfl)]
  · rw [if_neg (fun hc => h5 hc.symm), if_neg (fun hc => h4 hc.symm),
      if_neg (fun hc => h3 hc.symm), if_neg (fun hc => h2 hc.symm),
      if_neg (fun hc => h1 hc.symm), if_neg (fun hc => hd hc.symm), hk]

theorem mergedDependencies_mem (pkg d : JObject) (k : String) (v : JValue)
    (hd : lookupA pkg "dependencies" = some (JValue.obj d)) (hnd : NodupKeys d)
    (hk : lookupA d k = some v) :
    (lookupA (mergedDependencies pkg) k).isSome = true := by
  rw [mergedDependencies_lookup_char pkg d k hd hnd]
  split_ifs <;> simp [hk]

theorem mergedDependencies_preserves (pkg d : JObject) (k : String) (v : JValue)
    (hd : lookupA pkg "dependencies" = some (JValue.obj d)) (hnd : NodupKeys d)
    (hk : lookupA d k = some v)
    (hguard : k ∈ ["react", "react-dom", "@mindfiredigital/ignix-ui", "clsx", "tailwind-merge"] →
      truthy v = true) :
    lookupA (mergedDependencies pkg) k = some v := by
  rw [mergedDependencies_lookup_char pkg d k hd hnd]
  by_cases hk1 : k = "react"
  · subst hk1
    rw [if_neg (by decide), if_neg (by decide), if_neg (by decide), if_neg (by decide),
      if_pos rfl, hk, jsOr_some_truthy _ (hguard (by simp))]
  · by_cases hk2 : k = "react-dom"
    · subst hk2
      rw [if_neg (by decide), if_neg (by decide), if_neg (by decide), if_pos rfl, hk,
        jsOr_some_truthy _ (hguard (by simp))]
    · by_cases hk3 : k = "@mindfiredigital/ignix-ui"
      · subst hk3
        rw [if_neg (by decide), if_neg (by decide), if_pos rfl, hk,
          jsOr_some_truthy _ (hguard (by simp))]
      · by_cases hk4 : k = "clsx"
        · subst hk4
          rw [if_neg (by decide), if_pos rfl, hk, jsOr_some_truthy _ (hguard (by simp))]
        · by_cases hk5 : k = "tailwind-merge"
          · subst hk5
            rw [if_pos rfl, hk, jsOr_some_truthy _ (hguard (by simp))]
          · rw [if_neg (fun hc => hk5 hc.symm), if_neg (fun hc => hk4 hc.symm),
              if_neg (fun hc => hk3 hc.symm), if_neg (fun hc => hk2 hc.symm),
              if_neg (fun hc => hk1 hc.symm), hk]

theorem mergedDevDependencies_mem (pkg dvs : JObject) (k : String) (v : JValue)
    (hd : lookupA pkg "devDependencies" = some (JValue.obj dvs)) (hnd : NodupKeys dvs)
    (hk : lookupA dvs k = some v) :
    (lookupA (mergedDevDependencies pkg) k).isSome = true := by
  rw [mergedDevDependencies_lookup_char pkg dvs k hd hnd]
  split_ifs <;> simp [hk]

theorem mergedDevDependencies_preserves (pkg dvs : JObject) (k : String) (v : JValue)
    (hd : lookupA pkg "devDependencies" = some (JValue.obj dvs)) (hnd : NodupKeys dvs)
    (hk : lookupA dvs k = some v)
    (hnotin : k ∉ ["typescript", "@types/react", "@types/react-dom", "tailwindcss", "postcss",
      "autoprefixer", "eslint", "@typescript-eslint/parser", "@typescript-eslint/eslint-plugin",
      "prettier", "prettier-plugin-tailwindcss"]) :
    lookupA (mergedDevDependencies pkg) k = some v := by
  simp only [List.mem_cons, List.not_mem_nil, or_false, not_or] at hnotin
  obtain ⟨h1, h2, h3, h4, h5, h6, h7, h8, h9, h10, h11⟩ := hnotin
  rw [mergedDevDependencies_lookup_char pkg dvs k hd hnd]
  rw [if_neg (fun hc => h11 hc.symm), if_neg (fun hc => h10 hc.symm),
    if_neg (fun hc => h9 hc.symm), if_neg (fun hc => h8 hc.symm),
    if_neg (fun hc => h7 hc.symm), if_neg (fun hc => h6 hc.symm),
    if_neg (fun hc => h5 hc.symm), if_neg (fun hc => h4 hc.symm),
    if_neg (fun hc => h3 hc.symm), if_neg (fun hc => h2 hc.symm),
    if_neg (fun hc => h1 hc.symm), hk]

/-! Claim theorems. -/

/-- Claim C1, counterexample: the existing manifest pins `devDependencies.typescript`
to `^4.0.0`, yet the merged manifest maps `typescript` to the default `^5.6.2`, so a
default value does overwrite an existing value in a nested mapping. -/
theorem claim1_devdeps_default_overwrites_cex :
    lookupA [("devDependencies", JValue.obj [("typescript", JValue.str "^4.0.0")])]
        "devDependencies"
      = some (JValue.obj [("typescript", JValue.str "^4.0.0")])
    ∧ lookupA (mergedDevDependencies
        [("devDependencies", JValue.obj [("typescript", JValue.str "^4.0.0")])]) "typescript"
      = some (JValue.str "^5.6.2")
    ∧ JValue.str "^5.6.2" ≠ JValue.str "^4.0.0" := by
  refine ⟨rfl, rfl, ?_⟩
  intro h
  injection h with h
  exact absurd h (by decide)

/-- Claim C1 (amended): every key of an existing nested mapping is still present in
the merged mapping, and its value is preserved except where a default key overwrites
it: the script keys `typecheck`, `build:css`, `build`, `lint`, `format` and the eleven
`devDependencies` default keys always receive the fixed defaults, while `scripts.dev`
and the five `dependencies` default keys keep the existing value exactly when it is
truthy. -/
theorem claim1_nested_merge_preservation_amended (pkg : JObject) (k : String) (v : JValue) :
    (∀ s, lookupA pkg "scripts" = some (JValue.obj s) → NodupKeys s → lookupA s k = some v →
      (lookupA (mergedScripts pkg) k).isSome = true
      ∧ (k ∉ ["typecheck", "build:css", "build", "lint", "format"] →
          (k = "dev" → truthy v = true) →
          lookupA (mergedScripts pkg) k = some v))
    ∧ (∀ d, lookupA pkg "dependencies" = some (JValue.obj d) → NodupKeys d →
        lookupA d k = some v →
      (lookupA (mergedDependencies pkg) k).isSome = true
      ∧ ((k ∈ ["react", "react-dom", "@mindfiredigital/ignix-ui", "clsx", "tailwind-merge"] →
            truthy v = true) →
          lookupA (mergedDependencies pkg) k = some v))
    ∧ (∀ dvs, lookupA pkg "devDependencies" = some (JValue.obj dvs) → NodupKeys dvs →
        lookupA dvs k = some v →
      (lookupA (mergedDevDependencies pkg) k).isSome = true
      ∧ (k ∉ ["typescript", "@types/react", "@types/react-dom", "tailwindcss", "postcss",
              "autoprefixer", "eslint", "@typescript-eslint/parser",
              "@typescript-eslint/eslint-plugin", "prettier", "prettier-plugin-tailwindcss"] →
          lookupA (mergedDevDependencies pkg) k = some v)) := by
  refine ⟨?_, ?_, ?_⟩
  · intro s hs hnd hk
    exact ⟨mergedScripts_mem pkg s k v hs hnd hk,
      fun hnotin hdev => mergedScripts_preserves pkg s k v hs hnd hk hnotin hdev⟩
  · intro d hd hnd hk
    exact ⟨mergedDependencies_mem pkg d k v hd hnd hk,
      fun hguard => mergedDependencies_preserves pkg d k v hd hnd hk hguard⟩
  · intro dvs hd hnd hk
    exact ⟨mergedDevDependencies_mem pkg dvs k v hd hnd hk,
      fun hnotin => mergedDevDependencies_preserves pkg dvs k v hd hnd hk hnotin⟩

/-- Claim C1 witness: a custom script outside the default key set survives the merge
with its value intact. -/
theorem claim1_nested_merge_preservation_amended_witness :
    lookupA (mergedScripts [("scripts", JValue.obj [("hello", JValue.str "world")])]) "hello"
      = some (JValue.str "world") :=
  ((claim1_nested_merge_preservation_amended
      [("scripts", JValue.obj [("hello", JValue.str "world")])] "hello" (JValue.str "world")).1
    [("hello", JValue.str "world")] rfl (by simp [NodupKeys, keysOf]) rfl).2
    (by decide) (by decide)

/-- Claim C2, counterexample: an unrecognized top-level key `license` present in the
existing manifest is absent from the merged manifest: the merge does delete unknown
top-level keys. -/
theorem claim2_unknown_toplevel_key_dropped_cex :
    lookupA [("license", JValue.str "MIT")] "license" = some (JValue.str "MIT")
    ∧ lookupA (buildStarterPkg [("license", JValue.str "MIT")]) "license" = none :=
  ⟨rfl, rfl⟩

/-- Claim C2 (amended): the merged manifest's top-level keys are exactly the seven
fixed fields `name`, `version`, `private`, `type`, `scripts`, `dependencies`,
`devDependencies`; every other top-level key of the existing manifest is dropped. -/
theorem claim2_toplevel_keys_exactly_seven (pkg : JObject) :
    keysOf (buildStarterPkg pkg)
      = ["name", "version", "private", "type", "scripts", "dependencies", "devDependencies"] :=
  rfl

/-- Claim C3: when no `package.json` exists beforehand, the manifest written is
exactly the fixed default document (default name, version, privacy flag, module type,
and exactly the default scripts, dependencies and devDependencies entries), with no
log records beyond none. -/
theorem claim3_no_manifest_yields_default :
    runCreateUniversalPackageJson ReadResult.noFile = (defaultStarterManifest, [])
    ∧ lookupA (createUniversalPackageJson FS.empty).files "package.json"
      = some (FileData.json (JValue.obj defaultStarterManifest)) :=
  ⟨rfl, rfl⟩

/-- Claim C4, counterexample: an existing `scripts.dev` whose value is the empty
string (a falsy value) is replaced by the default placeholder, so the merged
`scripts.dev` does not always equal the existing value. -/
theorem claim4_falsy_dev_overwritten_cex :
    lookupA [("dev", JValue.str "")] "dev" = some (JValue.str "")
    ∧ lookupA (mergedScripts
        [("name", JValue.str "foo"), ("scripts", JValue.obj [("dev", JValue.str "")])]) "dev"
      = some (JValue.str "echo \"Plug your preferred framework dev server here (e.g. vite dev)\"")
    ∧ JValue.str "echo \"Plug your preferred framework dev server here (e.g. vite dev)\""
      ≠ JValue.str "" := by
  refine ⟨rfl, rfl, ?_⟩
  intro h
  injection h with h
  exact absurd h (by decide)

/-- Claim C4 (amended): a truthy existing `scripts.dev` value is always preserved by
the merge; and merging the manifest with name `foo` and `scripts.dev = custom` yields
name `foo`, the preserved `dev` entry, `typecheck = tsc --noEmit` and the remaining
four default scripts. -/
theorem claim4_custom_dev_preserved_amended :
    (∀ (pkg s : JObject) (v : JValue),
      lookupA pkg "scripts" = some (JValue.obj s) → lookupA s "dev" = some v →
      truthy v = true → lookupA (mergedScripts pkg) "dev" = some v)
    ∧ lookupA (buildStarterPkg
        [("name", JValue.str "foo"), ("scripts", JValue.obj [("dev", JValue.str "custom")])])
        "name" = some (JValue.str "foo")
    ∧ mergedScripts
        [("name", JValue.str "foo"), ("scripts", JValue.obj [("dev", JValue.str "custom")])]
      = [("dev", JValue.str "custom"),
         ("typecheck", JValue.str "tsc --noEmit"),
         ("build:css",
           JValue.str "tailwindcss -i ./src/styles/index.css -o ./dist/styles.css --minify"),
         ("build", JValue.str "npm run typecheck && npm run build:css"),
         ("lint", JValue.str "eslint \"src/**/*.\x7bts,tsx\x7d\" --max-warnings=0"),
         ("format", JValue.str "prettier --write \"src/**/*.\x7bts,tsx,css,md\x7d\"")] := by
  refine ⟨?_, rfl, rfl⟩
  intro pkg s v hs hk ht
  rw [(mergedScripts_fixed pkg).1, hs]
  simp only [getField]
  rw [hk, jsOr_some_truthy _ ht]

/-- Claim C4 witness: the universal part applied to a concrete truthy `dev` value. -/
theorem claim4_custom_dev_preserved_amended_witness :
    lookupA (mergedScripts [("scripts", JValue.obj [("dev", JValue.str "vite dev")])]) "dev"
      = some (JValue.str "vite dev") :=
  claim4_custom_dev_preserved_amended.1 _ [("dev", JValue.str "vite dev")] _ rfl rfl (by decide)

/-- Claim C5, counterexample: an existing `dependencies.react` pinned to the empty
string (a falsy value) is replaced by the default range `^18.3.1`, so the merge can
overwrite a pinned dependency entry. -/
theorem claim5_falsy_range_overwritten_cex :
    lookupA [("react", JValue.str "")] "react" = some (JValue.str "")
    ∧ lookupA (mergedDependencies
        [("dependencies", JValue.obj [("react", JValue.str "")])]) "react"
      = some (JValue.str "^18.3.1")
    ∧ JValue.str "^18.3.1" ≠ JValue.str "" := by
  refine ⟨rfl, rfl, ?_⟩
  intro h
  injection h with h
  exact absurd h (by decide)

/-- Claim C5 (amended): every package already present in the existing `dependencies`
map keeps its version range in the merged map, provided the range is truthy when the
package is one of the five default names (for all other names unconditionally). -/
theorem claim5_pinned_ranges_preserved_amended (pkg d : JObject) (k : String) (v : JValue)
    (hd : lookupA pkg "dependencies" = some (JValue.obj d)) (hnd : NodupKeys d)
    (hk : lookupA d k = some v)
    (hguard : k ∈ ["react", "react-dom", "@mindfiredigital/ignix-ui", "clsx", "tailwind-merge"] →
      truthy v = true) :
    lookupA (mergedDependencies pkg) k = some v :=
  mergedDependencies_preserves pkg d k v hd hnd hk hguard

/-- Claim C5 witness: a concrete pinned `react` range survives the merge. -/
theorem claim5_pinned_ranges_preserved_amended_witness :
    lookupA (mergedDependencies
        [("dependencies", JValue.obj [("react", JValue.str "17.0.0")])]) "react"
      = some (JValue.str "17.0.0") :=
  claim5_pinned_ranges_preserved_amended _ [("react", JValue.str "17.0.0")] "react" _
    rfl (by simp [NodupKeys, keysOf]) rfl (by decide)

/-- Claim C6: when the existing `package.json` is present but unparsable, the
operation returns normally (it is a total function of the read outcome), records
exactly one warning, and writes the full default manifest. -/
theorem claim6_unparsable_warns_writes_default :
    runCreateUniversalPackageJson ReadResult.unparsable
      = (defaultStarterManifest, [LogLevel.warn]) :=
  rfl

/-- Claim C7: every Static Emitter operation is idempotent: running it a second time
on the state it just produced leaves the file system unchanged, so the file content
after two runs equals the content after one run. -/
theorem claim7_static_emitters_idempotent :
    ∀ e ∈ staticEmitters, ∀ fs : FS, e (e fs) = e fs := by
  intro e he fs
  simp only [staticEmitters, List.mem_cons, List.not_mem_nil, or_false] at he
  rcases he with rfl | rfl | rfl | rfl | rfl | rfl | rfl | rfl
  · exact writeFileFS_writeFileFS _ _ _
  · exact writeFileFS_writeFileFS _ _ _
  · exact writeFileFS_writeFileFS _ _ _
  · exact writeFileFS_writeFileFS _ _ _
  · exact writeFileFS_writeFileFS _ _ _
  · exact createUniversalSrcStructure_idem fs
  · exact writeFileFS_writeFileFS _ _ _
  · exact writeFileFS_writeFileFS _ _ _

/-- Claim C7 witness: the tsconfig emitter, run twice from the empty root. -/
theorem claim7_static_emitters_idempotent_witness :
    createUniversalTsconfig ∈ staticEmitters
    ∧ createUniversalTsconfig (createUniversalTsconfig FS.empty)
      = createUniversalTsconfig FS.empty :=
  ⟨List.mem_cons_self _ _,
    claim7_static_emitters_idempotent createUniversalTsconfig (List.mem_cons_self _ _) FS.empty⟩

/-- Claim C8, counterexample: an existing `name` equal to the empty string (present
but falsy) is replaced by the default `ignix-universal-app`, so the merge does not
always use the existing value of a present top-level scalar field. -/
theorem claim8_falsy_scalar_overwritten_cex :
    lookupA [("name", JValue.str "")] "name" = some (JValue.str "")
    ∧ lookupA (buildStarterPkg [("name", JValue.str "")]) "name"
      = some (JValue.str "ignix-universal-app")
    ∧ JValue.str "ignix-universal-app" ≠ JValue.str "" := by
  refine ⟨rfl, rfl, ?_⟩
  intro h
  injection h with h
  exact absurd h (by decide)

/-- Claim C8 (amended): `name`, `version` and `type` take the existing value exactly
when it is present and truthy, and the fixed default when absent; `private` takes the
existing value exactly when it is present and non-null, and `true` when absent. -/
theorem claim8_toplevel_scalars_amended (pkg : JObject) (v : JValue) :
    ((lookupA pkg "name" = some v → truthy v = true →
        lookupA (buildStarterPkg pkg) "name" = some v)
      ∧ (lookupA pkg "name" = none →
        lookupA (buildStarterPkg pkg) "name" = some (JValue.str "ignix-universal-app")))
    ∧ ((lookupA pkg "version" = some v → truthy v = true →
        lookupA (buildStarterPkg pkg) "version" = some v)
      ∧ (lookupA pkg "version" = none →
        lookupA (buildStarterPkg pkg) "version" = some (JValue.str "0.1.0")))
    ∧ ((lookupA pkg "type" = some v → truthy v = true →
        lookupA (buildStarterPkg pkg) "type" = some v)
      ∧ (lookupA pkg "type" = none →
        lookupA (buildStarterPkg pkg) "type" = some (JValue.str "module")))
    ∧ ((lookupA pkg "private" = some v → v ≠ JValue.null →
        lookupA (buildStarterPkg pkg) "private" = some v)
      ∧ (lookupA pkg "private" = none →
        lookupA (buildStarterPkg pkg) "private" = some (JValue.bool true))) := by
  have hname : lookupA (buildStarterPkg pkg) "name"
      = some (jsOr (lookupA pkg "name") (JValue.str "ignix-universal-app")) := rfl
  have hver : lookupA (buildStarterPkg pkg) "version"
      = some (jsOr (lookupA pkg "version") (JValue.str "0.1.0")) := rfl
  have htype : lookupA (buildStarterPkg pkg) "type"
      = some (jsOr (lookupA pkg "type") (JValue.str "module")) := rfl
  have hpriv : lookupA (buildStarterPkg pkg) "private"
      = some (jsNullish (lookupA pkg "private") (JValue.bool true)) := rfl
  refine ⟨⟨?_, ?_⟩, ⟨?_, ?_⟩, ⟨?_, ?_⟩, ⟨?_, ?_⟩⟩
  · intro h ht
    rw [hname, h, jsOr_some_truthy _ ht]
  · intro h
    rw [hname, h]
    rfl
  · intro h ht
    rw [hver, h, jsOr_some_truthy _ ht]
  · intro h
    rw [hver, h]
    rfl
  · intro h ht
    rw [htype, h, jsOr_some_truthy _ ht]
  · intro h
    rw [htype, h]
    rfl
  · intro h hn
    rw [hpriv, h, jsNullish_some_ne_null _ hn]
  · intro h
    rw [hpriv, h]
    rfl

/-- Claim C8 witness: a present truthy `name` is preserved. -/
theorem claim8_toplevel_scalars_amended_witness :
    lookupA (buildStarterPkg [("name", JValue.str "foo")]) "name" = some (JValue.str "foo") :=
  (claim8_toplevel_scalars_amended [("name", JValue.str "foo")] (JValue.str "foo")).1.1
    rfl (by decide)

/-- Claim C9: after running every emitter operation exactly once on an empty target
root, the files that exist are exactly the eleven listed artifacts and the ensured
directories are exactly `src/components`, `src/pages`, `src/styles` and `dist`: no
other file is created. -/
theorem claim9_artifact_set_exact :
    keysOf (runAllEmitters FS.empty).files
      = ["package.json", "tsconfig.json", "tailwind.config.js", "postcss.config.js",
         ".eslintrc.json", "ignix.config.js", "src/components/UiShell.tsx",
         "src/pages/index.tsx", "src/styles/index.css", ".gitignore", "README.md"]
    ∧ (runAllEmitters FS.empty).dirs = ["src/components", "src/pages", "src/styles", "dist"] :=
  ⟨rfl, rfl⟩

/-- Claim C10: the manifest merge is idempotent: running `createUniversalPackageJson`
a second time, reading back the `package.json` it just wrote, writes the same
document and leaves the file system unchanged. -/
theorem claim10_manifest_merge_idempotent (fs : FS) :
    createUniversalPackageJson (createUniversalPackageJson fs)
      = createUniversalPackageJson fs := by
  rw [createUniversalPackageJson_eq (createUniversalPackageJson fs), readPackageJson_after_write]
  rw [createUniversalPackageJson_eq fs]
  cases hr : readPackageJson fs <;>
    simp [runCreateUniversalPackageJson, buildStarterPkg_idem, writeFileFS_writeFileFS]
